import Mathlib

/-!
# MindWatch analyzer: shallow embedding and verification

This file embeds the engagement-analysis core of the MindWatch repository
(`mindwatch_analyzer.py`) into Lean 4 and settles the frozen claims about it.

Modelling conventions:
* Python floats are modelled as `ℚ` (all arithmetic in the analyzer is
  ratios, sums and counts of exactly representable values).
* Python dicts keyed by `f"student_{i}"` (created in increasing index order,
  iterated in insertion order) are modelled as a `List` indexed by the slot
  position `i`; `slotKey i` records the literal key string.
* Randomness (`random.randint`, `random.choice`, ...) and I/O (image files,
  video capture, the detection backend) are modelled by passing the drawn
  values / per-frame backend outcomes as explicit arguments.
* `None` results and `{'error': ...}` dicts are modelled with `Option` and
  `Except String`.
-/

namespace MindWatch

/-- Attentive activity categories (`self.attentive_activities`, source line 57). -/
def attentive_activities : List String := ["listening", "reading", "writing"]

/-- Distracted activity categories (`self.distracted_activities`, source line 58). -/
def distracted_activities : List String := ["sleeping", "using_mobile", "turn", "turning"]

/-- One detection record, the dict built by `mock_detection` /
`parse_yolov8_results`: keys `class` (here `label`), `confidence`,
center form `x, y, width, height` and corner form `x1, y1, x2, y2`. -/
structure Detection where
  label : String
  confidence : ℚ
  x : ℚ
  y : ℚ
  width : ℚ
  height : ℚ
  x1 : ℚ
  y1 : ℚ
  x2 : ℚ
  y2 : ℚ
deriving DecidableEq

/-- The `position` sub-dict stored in a track entry (`update_tracking`). -/
structure TrackPosition where
  x : ℚ
  y : ℚ
  width : ℚ
  height : ℚ
deriving DecidableEq

/-- One timeline entry appended by `update_tracking` (source lines 424-435). -/
structure TrackEntry where
  frame : ℕ
  timestamp : ℚ
  activity : String
  confidence : ℚ
  position : TrackPosition
deriving DecidableEq

/-- One record of `self.detection_results` (source lines 333-337). -/
structure FrameRecord where
  frame : ℕ
  timestamp : ℚ
  detections : List Detection
deriving DecidableEq

/-- Per-slot analysis entry of the video summary (source lines 486-493).
The wall-clock `timestamp` field of the summary is omitted (nondeterministic
`datetime.now()`, irrelevant to all claims); `activity_breakdown` is the
`Counter` rendered as (first-occurrence-ordered) key/count pairs. -/
structure StudentAnalysis where
  total_detections : ℕ
  attentive_percentage : ℚ
  distracted_percentage : ℚ
  classification : String
  activity_breakdown : List (String × ℕ)
  timeline : List TrackEntry
deriving DecidableEq

/-- The video summary dict (source lines 499-505), minus the wall-clock field. -/
structure VideoSummary where
  video_duration : ℚ
  total_frames_analyzed : ℕ
  students_tracked : ℕ
  student_analysis : List (String × StudentAnalysis)
deriving DecidableEq

/-- The image summary dict (source lines 449-456), minus the wall-clock field. -/
structure ImageSummary where
  total_students : ℕ
  attentive_students : ℕ
  distracted_students : ℕ
  engagement_rate : ℚ
  activity_breakdown : List (String × ℕ)
deriving DecidableEq

/-- The run-derived mutable state of a `MindWatchAnalyzer` instance
(source lines 60-67): `student_tracks` (defaultdict keyed by
`f"student_{i}"`, modelled positionally), `frame_count`, `fps`,
`detection_results`, `student_summaries`.  Configuration fields
(`model_path`, `model_type`, `class_names`) are fixed at construction,
never touched by `reset_analysis` or the processing loop, and omitted. -/
structure AnalyzerState where
  student_tracks : List (List TrackEntry)
  frame_count : ℕ
  fps : ℚ
  detection_results : List FrameRecord
  student_summaries : List (String × StudentAnalysis)
deriving DecidableEq

/-- The state of a freshly constructed analyzer (`__init__`, lines 60-67):
empty tracks, zero frame count, default `fps = 30`, empty results. -/
def initState : AnalyzerState :=
  { student_tracks := []
    frame_count := 0
    fps := 30
    detection_results := []
    student_summaries := [] }

/-- `reset_analysis` (source lines 509-514): resets `student_tracks`,
`frame_count`, `detection_results` and `student_summaries`.  Note that it
does NOT touch `self.fps`. -/
def reset_analysis (s : AnalyzerState) : AnalyzerState :=
  { s with
    student_tracks := []
    frame_count := 0
    detection_results := []
    student_summaries := [] }

/-- `collections.Counter` over a list of labels, rendered as key/count
pairs in first-occurrence order (the order `Counter` iterates). -/
def counter (l : List String) : List (String × ℕ) :=
  l.dedup.map (fun a => (a, l.count a))

/-- `sum(1 for activity in activities if activity in cats)`. -/
def countIn (cats : List String) (activities : List String) : ℕ :=
  (activities.filter (fun a => decide (a ∈ cats))).length

/-- `generate_image_summary` (source lines 437-458).  `none` models a falsy
`results` or a dict without the `'predictions'` key (→ error dict);
otherwise the summary is computed from the prediction list. -/
def generate_image_summary (results : Option (List Detection)) :
    Except String ImageSummary :=
  match results with
  | none => .error "No detections found"
  | some preds =>
    let activities := preds.map (·.label)
    let total := preds.length
    let att := countIn attentive_activities activities
    let dis := countIn distracted_activities activities
    .ok { total_students := total
          attentive_students := att
          distracted_students := dis
          engagement_rate := if 0 < total then (att : ℚ) / total * 100 else 0
          activity_breakdown := counter activities }

/-- The timeline entry appended for one prediction by `update_tracking`
(source lines 424-435). -/
def mkTrackEntry (fps : ℚ) (frameNumber : ℕ) (p : Detection) : TrackEntry :=
  { frame := frameNumber
    timestamp := (frameNumber : ℚ) / fps
    activity := p.label
    confidence := p.confidence
    position := { x := p.x, y := p.y, width := p.width, height := p.height } }

/-- The literal dict key `f"student_{i}"` used by `update_tracking` and
iterated by `generate_video_summary`. -/
def slotKey (i : ℕ) : String := "student_" ++ toString i

/-- `update_tracking` (source lines 416-435): appends, for each index
`i < preds.length`, the entry built from prediction `i` to track slot `i`
(the defaultdict creates missing keys, in increasing index order, with an
empty list); slots beyond the prediction list are unchanged. -/
def update_tracking (fps : ℚ) (frameNumber : ℕ) (preds : List Detection)
    (tracks : List (List TrackEntry)) : List (List TrackEntry) :=
  (List.range (max tracks.length preds.length)).map (fun i =>
    match preds.get? i with
    | some p => tracks.getD i [] ++ [mkTrackEntry fps frameNumber p]
    | none => tracks.getD i [])

/-- The timeline of slot `i` (a never-touched key of the defaultdict reads
as the empty list). -/
def slotAt (tracks : List (List TrackEntry)) (i : ℕ) : List TrackEntry :=
  tracks.getD i []

/-- The per-slot analysis computed inside the loop of
`generate_video_summary` (source lines 468-493). -/
def analyzeSlot (t : List TrackEntry) : StudentAnalysis :=
  let activities := t.map (·.activity)
  let total := t.length
  let att := countIn attentive_activities activities
  let dis := countIn distracted_activities activities
  let attP : ℚ := if 0 < total then (att : ℚ) / total * 100 else 0
  let disP : ℚ := if 0 < total then (dis : ℚ) / total * 100 else 0
  { total_detections := total
    attentive_percentage := attP
    distracted_percentage := disP
    classification := if disP < attP then "Attentive" else "Distracted"
    activity_breakdown := counter activities
    timeline := t }

/-- The `student_analysis` dict built by the loop of
`generate_video_summary` (source lines 466-493): one entry per non-empty
slot, in slot-index (= dict insertion) order, keyed `f"student_{i}"`. -/
def studentAnalysisList (tracks : List (List TrackEntry)) :
    List (String × StudentAnalysis) :=
  tracks.enum.filterMap (fun p =>
    if p.2.isEmpty then none else some (slotKey p.1, analyzeSlot p.2))

/-- The `overall_summary` dict built by `generate_video_summary`
(source lines 495-505). -/
def videoSummaryOf (s : AnalyzerState) : VideoSummary :=
  { video_duration :=
      if 0 < s.fps then (s.detection_results.length : ℚ) / s.fps else 0
    total_frames_analyzed := s.detection_results.length
    students_tracked := (studentAnalysisList s.student_tracks).length
    student_analysis := studentAnalysisList s.student_tracks }

/-- `generate_video_summary` (source lines 460-507): error dict when
`detection_results` is empty, otherwise per-slot analyses (skipping empty
slots) plus the aggregate statistics. -/
def generate_video_summary (s : AnalyzerState) : Except String VideoSummary :=
  if s.detection_results.isEmpty then .error "No detection results available"
  else .ok (videoSummaryOf s)

/-- One iteration of the `process_video` loop body (source lines 307-352)
for frame `p.1` whose detection outcome is `p.2`: frames with
`frame_number % sample_rate == 0` are sampled; a sampled frame with a
non-empty prediction list updates tracking and appends a record to
`detection_results`; every sampled frame increments the
`processed_frames` counter (the second component). -/
def videoStep (k : ℕ) (acc : AnalyzerState × ℕ) (p : ℕ × List Detection) :
    AnalyzerState × ℕ :=
  if p.1 % k = 0 then
    let s := acc.1
    let s' :=
      if p.2.isEmpty then s
      else
        { s with
          student_tracks := update_tracking s.fps p.1 p.2 s.student_tracks
          detection_results := s.detection_results ++
            [{ frame := p.1
               timestamp := (p.1 : ℚ) / s.fps
               detections := p.2 }] }
    (s', acc.2 + 1)
  else acc

/-- `process_video` (source lines 267-364).  `opened` models
`cap.isOpened()`; `videoFps` the source's frame rate (written to
`self.fps`, line 289); `frames` the per-frame detection outcomes
(`detect_objects` on the temporarily saved frame), indexed by frame
number; `k` the `sample_rate`.  Returns the final state and the value of
`generate_video_summary` on it (the annotated-output writing is pure I/O
and not modelled). -/
def process_video (s : AnalyzerState) (opened : Bool) (videoFps : ℚ)
    (frames : List (List Detection)) (k : ℕ) :
    AnalyzerState × Except String VideoSummary :=
  if opened then
    let s0 := { s with fps := videoFps }
    let s1 := (frames.enum.foldl (videoStep k) (s0, 0)).1
    (s1, generate_video_summary s1)
  else (s, .error "Could not open video")

/-- `detect_objects` (source lines 82-108).  `backend = none` models an
unavailable backend (`model_type == "mock"` / no model); `some (.error e)`
models a backend invocation that raised (caught by the `except` clause);
`some (.ok preds)` a successful backend parse.  `mock` is the result
`mock_detection` would produce for this frame. -/
def detect_objects (backend : Option (Except String (List Detection)))
    (mock : List Detection) : List Detection :=
  match backend with
  | some (.ok preds) => preds
  | some (.error _) => mock
  | none => mock

/-- The random draws of one iteration of the `mock_detection` loop
(source lines 127-153): `random.randint` centers, box dimensions
`w ∈ [80,150]`, `h ∈ [120,200]`, a random activity and confidence. -/
structure MockParams where
  x_center : ℤ
  y_center : ℤ
  w : ℕ
  h : ℕ
  activity : String
  confidence : ℚ
deriving DecidableEq

/-- The detection dict built for one draw by `mock_detection`
(source lines 134-153): corners are `center ∓ dim // 2` with Python
integer floor division on the non-negative `w`, `h`. -/
def mkMockDetection (p : MockParams) : Detection :=
  { label := p.activity
    confidence := p.confidence
    x := p.x_center
    y := p.y_center
    width := p.w
    height := p.h
    x1 := (p.x_center : ℚ) - (p.w / 2 : ℕ)
    y1 := (p.y_center : ℚ) - (p.h / 2 : ℕ)
    x2 := (p.x_center : ℚ) + (p.w / 2 : ℕ)
    y2 := (p.y_center : ℚ) + (p.h / 2 : ℕ) }

/-- `mock_detection` (source lines 110-155): the empty prediction list when
the image cannot be loaded, else one detection per random draw. -/
def mock_detection (imageLoaded : Bool) (params : List MockParams) :
    List Detection :=
  if imageLoaded then params.map mkMockDetection else []

/-- One backend box of a YOLOv8 result: corner coordinates, confidence and
integer class id (source lines 162-169). -/
structure RawBox where
  x1 : ℚ
  y1 : ℚ
  x2 : ℚ
  y2 : ℚ
  conf : ℚ
  cls : ℕ
deriving DecidableEq

/-- `self.class_names.get(cls, f"class_{cls}")` (source line 177). -/
def className (names : List (ℕ × String)) (cls : ℕ) : String :=
  (names.lookup cls).getD ("class_" ++ toString cls)

/-- The detection dict built from one backend box by
`parse_yolov8_results` (source lines 166-190): the center form is computed
from the corners. -/
def parseBox (names : List (ℕ × String)) (b : RawBox) : Detection :=
  { label := className names b.cls
    confidence := b.conf
    x := (b.x1 + b.x2) / 2
    y := (b.y1 + b.y2) / 2
    width := b.x2 - b.x1
    height := b.y2 - b.y1
    x1 := b.x1
    y1 := b.y1
    x2 := b.x2
    y2 := b.y2 }

/-- `parse_yolov8_results` (source lines 157-192): `none` models
`result.boxes is None` (→ empty list), else one detection per box.
(`parse_yolov5_results`, lines 194-227, performs the identical
per-row computation on a dataframe and is not separately modelled.) -/
def parse_yolov8_results (names : List (ℕ × String))
    (boxes : Option (List RawBox)) : List Detection :=
  match boxes with
  | none => []
  | some bs => bs.map (parseBox names)

/-- `process_single_image` (source lines 229-265).  `detection` is the
`detect_objects` outcome (`none` for a falsy result / missing
`'predictions'` key), `imageLoaded` models `cv2.imread` succeeding,
`outputPath` the optional save path.  Returns the
`(annotated_path, results, summary)` triple; `(none, none, none)` is the
explicit no-detections / load-failure sentinel. -/
def process_single_image (outputPath : Option String)
    (detection : Option (List Detection)) (imageLoaded : Bool) :
    Option String × Option (List Detection) × Option (Except String ImageSummary) :=
  match detection with
  | none => (none, none, none)
  | some preds =>
    if preds.isEmpty then (none, none, none)
    else if imageLoaded then
      (outputPath, some preds, some (generate_image_summary (some preds)))
    else (none, none, none)

/-- The indices the `process_video` loop samples for a source of `N`
frames with stride `k`: the multiples of `k` below `N`, in visit order. -/
def sampledIndices (N k : ℕ) : List ℕ :=
  (List.range N).filter (fun n => decide (n % k = 0))

/-- The number of non-empty track slots. -/
def nonEmptySlotCount (tracks : List (List TrackEntry)) : ℕ :=
  (tracks.filter (fun t => !t.isEmpty)).length

/-- A sequence of `update_tracking` calls, one per processed
`(frame_number, predictions)` pair. -/
def applyFrames (fps : ℚ) (fs : List (ℕ × List Detection))
    (tracks : List (List TrackEntry)) : List (List TrackEntry) :=
  fs.foldl (fun tr p => update_tracking fps p.1 p.2 tr) tracks

/-- The maximum detection count observed in any single processed frame. -/
def maxDetections (fs : List (ℕ × List Detection)) : ℕ :=
  fs.foldr (fun p m => max p.2.length m) 0

/-- The attentive fraction of a timeline: the fraction of its entries
whose activity is an attentive activity. -/
def attentiveFraction (t : List TrackEntry) : ℚ :=
  (countIn attentive_activities (t.map (·.activity)) : ℚ) / t.length

/-- The distracted fraction of a timeline: the fraction of its entries
whose activity is a distracted activity. -/
def distractedFraction (t : List TrackEntry) : ℚ :=
  (countIn distracted_activities (t.map (·.activity)) : ℚ) / t.length

/-- A concrete detection with the given activity label, for concrete runs. -/
def demoDet (lab : String) : Detection :=
  { label := lab, confidence := 9/10, x := 50, y := 50, width := 10,
    height := 20, x1 := 45, y1 := 40, x2 := 55, y2 := 60 }

/-- The spec scenario's detection list: 2 `reading`, 1 `sleeping`. -/
def demoPreds : List Detection :=
  [demoDet "reading", demoDet "reading", demoDet "sleeping"]

/-- A concrete analyzer state with one tracked slot and one stored frame
record, as produced by one processed frame with one `reading` detection. -/
def demoState : AnalyzerState :=
  { initState with
    student_tracks := [[mkTrackEntry 30 0 (demoDet "reading")]]
    detection_results := [{ frame := 0, timestamp := 0,
                            detections := [demoDet "reading"] }] }

/-- Mock-detection draws with odd box dimensions (`w = 81 ∈ [80,150]`,
`h = 121 ∈ [120,200]`, both inside the ranges `mock_detection` samples). -/
def oddMockParams : MockParams :=
  { x_center := 200, y_center := 200, w := 81, h := 121,
    activity := "reading", confidence := 7/10 }

/-- Mock-detection draws with even box dimensions. -/
def evenMockParams : MockParams :=
  { x_center := 300, y_center := 150, w := 80, h := 120,
    activity := "sleeping", confidence := 4/5 }

/-- A concrete backend box and class-name table. -/
def demoBox : RawBox := { x1 := 10, y1 := 20, x2 := 30, y2 := 60, conf := 4/5, cls := 1 }

/-- A concrete class-name table (`{1: 'reading'}`). -/
def demoNames : List (ℕ × String) := [(1, "reading")]

/-! ## Helper lemmas -/

/-- `update_tracking` acts slot-wise: slot `i` receives the entry built
from prediction `i` when one exists and is untouched otherwise. -/
theorem slotAt_update_tracking (fps : ℚ) (n : ℕ) (preds : List Detection)
    (tracks : List (List TrackEntry)) (i : ℕ) :
    slotAt (update_tracking fps n preds tracks) i =
      match preds.get? i with
      | some p => slotAt tracks i ++ [mkTrackEntry fps n p]
      | none => slotAt tracks i := by
  unfold slotAt update_tracking
  rcases lt_or_ge i (max tracks.length preds.length) with h | h
  · rw [List.getD_eq_getElem _ _ (by simpa using h)]
    simp
  · have h1 : tracks.length ≤ i := le_trans (le_max_left _ _) h
    have h2 : preds.length ≤ i := le_trans (le_max_right _ _) h
    rw [List.getD_eq_default _ _ (by simpa using h),
      List.get?_eq_none.mpr h2, List.getD_eq_default _ _ h1]

/-- Slot lengths after one `update_tracking`: slot `i` grows by one
exactly when the frame had more than `i` detections. -/
theorem length_slotAt_update_tracking (fps : ℚ) (n : ℕ)
    (preds : List Detection) (tracks : List (List TrackEntry)) (i : ℕ) :
    (slotAt (update_tracking fps n preds tracks) i).length =
      (slotAt tracks i).length + if i < preds.length then 1 else 0 := by
  rw [slotAt_update_tracking]
  cases hp : preds.get? i with
  | some p =>
    have : i < preds.length := by
      by_contra hc
      rw [List.get?_eq_none.mpr (le_of_not_lt hc)] at hp
      exact Option.noConfusion hp
    simp [this]
  | none =>
    have : ¬ i < preds.length := by
      intro hc
      rw [List.get?_eq_get hc] at hp
      exact Option.noConfusion hp
    simp [this]

/-- Slot lengths after a sequence of updates: slot `i` holds one entry per
processed frame whose detection list has more than `i` elements. -/
theorem length_slotAt_applyFrames (fps : ℚ) (fs : List (ℕ × List Detection))
    (tracks : List (List TrackEntry)) (i : ℕ) :
    (slotAt (applyFrames fps fs tracks) i).length =
      (slotAt tracks i).length +
        fs.countP (fun p => decide (i < p.2.length)) := by
  induction fs generalizing tracks with
  | nil => simp [applyFrames]
  | cons p fs ih =>
    have step : applyFrames fps (p :: fs) tracks =
        applyFrames fps fs (update_tracking fps p.1 p.2 tracks) := rfl
    rw [step, ih, length_slotAt_update_tracking, List.countP_cons]
    by_cases h : i < p.2.length
    · simp [h]
      omega
    · simp [h]

/-- `update_tracking` extends the slot list to the larger of the current
slot count and the frame's detection count. -/
theorem length_update_tracking (fps : ℚ) (n : ℕ) (preds : List Detection)
    (tracks : List (List TrackEntry)) :
    (update_tracking fps n preds tracks).length =
      max tracks.length preds.length := by
  simp [update_tracking]

/-- The slot count after a sequence of updates is the larger of the
initial slot count and the maximum per-frame detection count. -/
theorem length_applyFrames (fps : ℚ) (fs : List (ℕ × List Detection))
    (tracks : List (List TrackEntry)) :
    (applyFrames fps fs tracks).length =
      max tracks.length (maxDetections fs) := by
  induction fs generalizing tracks with
  | nil => simp [applyFrames, maxDetections]
  | cons p fs ih =>
    have step : applyFrames fps (p :: fs) tracks =
        applyFrames fps fs (update_tracking fps p.1 p.2 tracks) := rfl
    have hmax : maxDetections (p :: fs) = max p.2.length (maxDetections fs) := rfl
    rw [step, ih, length_update_tracking, hmax, max_assoc]

/-- `i` is below the maximum detection count iff some processed frame has
more than `i` detections. -/
theorem lt_maxDetections_iff (fs : List (ℕ × List Detection)) (i : ℕ) :
    i < maxDetections fs ↔ ∃ p ∈ fs, i < p.2.length := by
  induction fs with
  | nil => simp [maxDetections]
  | cons p fs ih =>
    have hmax : maxDetections (p :: fs) = max p.2.length (maxDetections fs) := rfl
    simp [hmax, lt_max_iff, ih]

/-- The `processed_frames` counter of the video loop counts exactly the
pairs whose frame number is a multiple of the stride. -/
theorem videoLoop_processed (k : ℕ) (l : List (ℕ × List Detection))
    (s : AnalyzerState) (c : ℕ) :
    (l.foldl (videoStep k) (s, c)).2 =
      c + l.countP (fun p => decide (p.1 % k = 0)) := by
  induction l generalizing s c with
  | nil => simp
  | cons p l ih =>
    rw [List.foldl_cons, List.countP_cons]
    by_cases h : p.1 % k = 0
    · by_cases hp : p.2.isEmpty
      · have hstep : videoStep k (s, c) p = (s, c + 1) := by
          simp [videoStep, h, hp]
        rw [hstep, ih]
        simp [h]
        omega
      · have hstep : videoStep k (s, c) p =
            ({ s with
               student_tracks := update_tracking s.fps p.1 p.2 s.student_tracks
               detection_results := s.detection_results ++
                 [{ frame := p.1
                    timestamp := (p.1 : ℚ) / s.fps
                    detections := p.2 }] }, c + 1) := by
          simp [videoStep, h, hp]
        rw [hstep, ih]
        simp [h]
        omega
    · have hstep : videoStep k (s, c) p = (s, c) := by
        simp [videoStep, h]
      rw [hstep, ih]
      simp [h]

/-- The video loop never changes the `fps` field of the state. -/
theorem videoLoop_fps (k : ℕ) (l : List (ℕ × List Detection))
    (s : AnalyzerState) (c : ℕ) :
    ((l.foldl (videoStep k) (s, c)).1).fps = s.fps := by
  induction l generalizing s c with
  | nil => rfl
  | cons p l ih =>
    rw [List.foldl_cons]
    by_cases h : p.1 % k = 0
    · by_cases hp : p.2.isEmpty
      · have hstep : videoStep k (s, c) p = (s, c + 1) := by
          simp [videoStep, h, hp]
        rw [hstep, ih]
      · have hstep : videoStep k (s, c) p =
            ({ s with
               student_tracks := update_tracking s.fps p.1 p.2 s.student_tracks
               detection_results := s.detection_results ++
                 [{ frame := p.1
                    timestamp := (p.1 : ℚ) / s.fps
                    detections := p.2 }] }, c + 1) := by
          simp [videoStep, h, hp]
        rw [hstep, ih]
    · have hstep : videoStep k (s, c) p = (s, c) := by
        simp [videoStep, h]
      rw [hstep, ih]

/-- One stored frame record per sampled frame with a non-empty detection
list. -/
theorem videoLoop_results_length (k : ℕ) (l : List (ℕ × List Detection))
    (s : AnalyzerState) (c : ℕ) :
    ((l.foldl (videoStep k) (s, c)).1).detection_results.length =
      s.detection_results.length +
        l.countP (fun p => decide (p.1 % k = 0) && !p.2.isEmpty) := by
  induction l generalizing s c with
  | nil => simp
  | cons p l ih =>
    rw [List.foldl_cons, List.countP_cons]
    by_cases h : p.1 % k = 0
    · by_cases hp : p.2.isEmpty
      · have hstep : videoStep k (s, c) p = (s, c + 1) := by
          simp [videoStep, h, hp]
        rw [hstep, ih]
        simp [h, hp]
      · have hstep : videoStep k (s, c) p =
            ({ s with
               student_tracks := update_tracking s.fps p.1 p.2 s.student_tracks
               detection_results := s.detection_results ++
                 [{ frame := p.1
                    timestamp := (p.1 : ℚ) / s.fps
                    detections := p.2 }] }, c + 1) := by
          simp [videoStep, h, hp]
        rw [hstep, ih]
        simp [h, hp]
        omega
    · have hstep : videoStep k (s, c) p = (s, c) := by
        simp [videoStep, h]
      rw [hstep, ih]
      simp [h]

/-- Counting sampled pairs of an enumerated list is counting sampled
indices below its length. -/
theorem countP_enum_sampled (k : ℕ) (frames : List (List Detection)) :
    frames.enum.countP (fun p => decide (p.1 % k = 0)) =
      (sampledIndices frames.length k).length := by
  have h1 : frames.enum.map Prod.fst = List.range frames.length := by
    rw [List.enum_eq_enumFrom, List.enumFrom_map_fst, List.range_eq_range']
  rw [sampledIndices, ← List.countP_eq_length_filter, ← h1, List.countP_map]
  rfl

/-- The number of sampled indices below `N` for a positive stride `k` is
the ceiling of `N` over `k`, i.e. `(N + k - 1) / k`. -/
theorem length_sampledIndices (k : ℕ) (hk : 0 < k) (N : ℕ) :
    (sampledIndices N k).length = (N + k - 1) / k := by
  induction N with
  | zero =>
    simp [sampledIndices]
    rw [Nat.div_eq_of_lt (by omega)]
  | succ N ih =>
    have hr : List.range (N + 1) = List.range N ++ [N] := by
      rw [← Nat.succ_eq_add_one]
      exact List.range_succ N
    have hsucc : N + 1 + k - 1 = (N + k - 1) + 1 := by omega
    rw [sampledIndices, hr, List.filter_append, List.length_append,
      ← sampledIndices, ih, hsucc, Nat.succ_div]
    have hdvd : (k ∣ N + k - 1 + 1) ↔ (N % k = 0) := by
      have : N + k - 1 + 1 = N + k := by omega
      rw [this, Nat.dvd_add_self_right, Nat.dvd_iff_mod_eq_zero]
    by_cases h : N % k = 0
    · simp [h, hdvd.mpr h]
    · rw [if_neg (fun hc => h (hdvd.mp hc))]
      simp [h]

/-- The sampled indices are exactly the multiples of the stride below the
frame count. -/
theorem mem_sampledIndices (N k m : ℕ) :
    m ∈ sampledIndices N k ↔ m < N ∧ m % k = 0 := by
  simp [sampledIndices, List.mem_filter, List.mem_range]

/-- The sampled indices are visited in strictly increasing order. -/
theorem pairwise_sampledIndices (N k : ℕ) :
    (sampledIndices N k).Pairwise (· < ·) :=
  (List.pairwise_lt_range N).filter _

/-- The video summary reports one tracked student per non-empty slot. -/
theorem length_studentAnalysisList (tracks : List (List TrackEntry)) :
    (studentAnalysisList tracks).length = nonEmptySlotCount tracks := by
  rw [studentAnalysisList, List.length_filterMap_eq_countP]
  have hcong : tracks.enum.countP
      (fun p => ((if p.2.isEmpty then none
        else some (slotKey p.1, analyzeSlot p.2)) : Option _).isSome) =
      tracks.enum.countP ((fun t => !t.isEmpty) ∘ Prod.snd) := by
    refine List.countP_congr ?_
    intro p _
    by_cases hp : p.2.isEmpty
    · simp [hp]
    · simp [hp]
  rw [hcong, ← List.countP_map, List.enum_eq_enumFrom, List.enumFrom_map_snd,
    nonEmptySlotCount, List.countP_eq_length_filter]

/-- The classification of a non-empty timeline, in terms of its attentive
and distracted fractions: `Attentive` iff the attentive fraction strictly
exceeds the distracted one, `Distracted` otherwise (ties included). -/
theorem analyzeSlot_classification (t : List TrackEntry) (h : t ≠ []) :
    ((analyzeSlot t).classification = "Attentive" ↔
      distractedFraction t < attentiveFraction t) ∧
    (distractedFraction t = attentiveFraction t →
      (analyzeSlot t).classification = "Distracted") ∧
    ((analyzeSlot t).classification = "Attentive" ∨
      (analyzeSlot t).classification = "Distracted") := by
  have htot : 0 < t.length := List.length_pos.mpr h
  have hcls : (analyzeSlot t).classification =
      if (countIn distracted_activities (t.map (·.activity)) : ℚ) / t.length * 100 <
          (countIn attentive_activities (t.map (·.activity)) : ℚ) / t.length * 100
      then "Attentive" else "Distracted" := by
    simp [analyzeSlot, htot]
  have key : ((countIn distracted_activities (t.map (·.activity)) : ℚ) / t.length * 100 <
      (countIn attentive_activities (t.map (·.activity)) : ℚ) / t.length * 100) ↔
      distractedFraction t < attentiveFraction t := by
    rw [attentiveFraction, distractedFraction]
    exact mul_lt_mul_right (by norm_num)
  refine ⟨?_, ?_, ?_⟩
  · rw [hcls]
    by_cases hlt : distractedFraction t < attentiveFraction t
    · rw [if_pos (key.mpr hlt)]
      simp [hlt]
    · rw [if_neg (fun hc => hlt (key.mp hc))]
      simp [hlt]
  · intro heq
    rw [hcls, if_neg (fun hc => absurd (key.mp hc) (by rw [heq]; exact lt_irrefl _))]
  · rw [hcls]
    by_cases hlt : (countIn distracted_activities (t.map (·.activity)) : ℚ) / t.length * 100 <
        (countIn attentive_activities (t.map (·.activity)) : ℚ) / t.length * 100
    · exact Or.inl (if_pos hlt)
    · exact Or.inr (if_neg hlt)

/-- A state with stored detection results produces the ok summary. -/
theorem generate_video_summary_ok (s : AnalyzerState)
    (hres : s.detection_results ≠ []) :
    generate_video_summary s = .ok (videoSummaryOf s) := by
  rw [generate_video_summary, if_neg]
  simp [hres]

/-- Each non-empty slot contributes its analysis, under its literal dict
key, to the summary's `student_analysis`. -/
theorem mem_studentAnalysisList (tracks : List (List TrackEntry)) (i : ℕ)
    (hi : i < tracks.length) (hne : slotAt tracks i ≠ []) :
    (slotKey i, analyzeSlot (slotAt tracks i)) ∈ studentAnalysisList tracks := by
  apply List.mem_filterMap.mpr
  refine ⟨(i, slotAt tracks i), ?_, ?_⟩
  · apply List.mem_enum_iff_getElem?.mpr
    show tracks[i]? = some (slotAt tracks i)
    rw [slotAt, List.getD_eq_getElem _ _ hi, List.getElem?_eq_getElem hi]
  · have hne' : (slotAt tracks i).isEmpty = false := by
      simp [hne]
    simp [hne']

/-- Evaluation of the image summary on the concrete scenario list:
3 detections, 2 attentive, 1 distracted, engagement rate `200/3`. -/
theorem image_summary_demo :
    generate_image_summary (some demoPreds) = .ok
      { total_students := 3
        attentive_students := 2
        distracted_students := 1
        engagement_rate := 200/3
        activity_breakdown := [("reading", 2), ("sleeping", 1)] } := by
  have h1 : generate_image_summary (some demoPreds) = .ok
      { total_students := 3
        attentive_students := 2
        distracted_students := 1
        engagement_rate := (2 : ℚ) / 3 * 100
        activity_breakdown := [("reading", 2), ("sleeping", 1)] } := by
    simp [generate_image_summary, demoPreds, demoDet, countIn, counter,
      attentive_activities, distracted_activities]
  rw [h1]
  norm_num

/-! ## Claims -/

/-- C1: For every track slot with at least one timeline entry, the video
summary contains the slot's analysis, and it is classified `"Attentive"`
iff the slot's attentive fraction strictly exceeds its distracted
fraction, and `"Distracted"` otherwise; in particular a tie classifies as
`"Distracted"`. -/
theorem C1_slot_classification (s : AnalyzerState) (i : ℕ)
    (hres : s.detection_results ≠ [])
    (hi : i < s.student_tracks.length)
    (hne : slotAt s.student_tracks i ≠ []) :
    generate_video_summary s = .ok (videoSummaryOf s) ∧
    (slotKey i, analyzeSlot (slotAt s.student_tracks i)) ∈
      (videoSummaryOf s).student_analysis ∧
    ((analyzeSlot (slotAt s.student_tracks i)).classification = "Attentive" ↔
      distractedFraction (slotAt s.student_tracks i) <
        attentiveFraction (slotAt s.student_tracks i)) ∧
    (distractedFraction (slotAt s.student_tracks i) =
        attentiveFraction (slotAt s.student_tracks i) →
      (analyzeSlot (slotAt s.student_tracks i)).classification = "Distracted") ∧
    ((analyzeSlot (slotAt s.student_tracks i)).classification = "Attentive" ∨
      (analyzeSlot (slotAt s.student_tracks i)).classification = "Distracted") :=
  ⟨generate_video_summary_ok s hres,
   mem_studentAnalysisList s.student_tracks i hi hne,
   (analyzeSlot_classification _ hne).1,
   (analyzeSlot_classification _ hne).2.1,
   (analyzeSlot_classification _ hne).2.2⟩

/-- C1 witness: the hypotheses hold of the concrete state `demoState` at
slot 0, so the classification property holds there. -/
theorem C1_slot_classification_witness :
    generate_video_summary demoState = .ok (videoSummaryOf demoState) ∧
    (slotKey 0, analyzeSlot (slotAt demoState.student_tracks 0)) ∈
      (videoSummaryOf demoState).student_analysis ∧
    ((analyzeSlot (slotAt demoState.student_tracks 0)).classification = "Attentive" ↔
      distractedFraction (slotAt demoState.student_tracks 0) <
        attentiveFraction (slotAt demoState.student_tracks 0)) ∧
    (distractedFraction (slotAt demoState.student_tracks 0) =
        attentiveFraction (slotAt demoState.student_tracks 0) →
      (analyzeSlot (slotAt demoState.student_tracks 0)).classification = "Distracted") ∧
    ((analyzeSlot (slotAt demoState.student_tracks 0)).classification = "Attentive" ∨
      (analyzeSlot (slotAt demoState.student_tracks 0)).classification = "Distracted") :=
  C1_slot_classification demoState 0 (by decide) (by decide) (by decide)

/-- C2 (amended): for every non-empty detection list the image summary has
`total_students` = detection count, `attentive_students` /
`distracted_students` = counts over the activity partition, and
`engagement_rate` = attentive over total times 100; on 2 `reading` +
1 `sleeping` this yields totals 3/2/1 and engagement rate `200/3`
(about 66.67, rendered `66.7` at one decimal by the report — not exactly
`66.7`). -/
theorem C2_image_summary (preds : List Detection) (h : preds ≠ []) :
    generate_image_summary (some preds) = .ok
      { total_students := preds.length
        attentive_students := countIn attentive_activities (preds.map (·.label))
        distracted_students := countIn distracted_activities (preds.map (·.label))
        engagement_rate :=
          (countIn attentive_activities (preds.map (·.label)) : ℚ) / preds.length * 100
        activity_breakdown := counter (preds.map (·.label)) } ∧
    generate_image_summary (some demoPreds) = .ok
      { total_students := 3
        attentive_students := 2
        distracted_students := 1
        engagement_rate := 200/3
        activity_breakdown := [("reading", 2), ("sleeping", 1)] } := by
  constructor
  · have htot : 0 < preds.length := List.length_pos.mpr h
    simp [generate_image_summary, htot]
  · exact image_summary_demo

/-- C2 witness: the concrete scenario list is non-empty, so the theorem
applies to it. -/
theorem C2_image_summary_witness :
    generate_image_summary (some demoPreds) = .ok
      { total_students := demoPreds.length
        attentive_students := countIn attentive_activities (demoPreds.map (·.label))
        distracted_students := countIn distracted_activities (demoPreds.map (·.label))
        engagement_rate :=
          (countIn attentive_activities (demoPreds.map (·.label)) : ℚ) / demoPreds.length * 100
        activity_breakdown := counter (demoPreds.map (·.label)) } ∧
    generate_image_summary (some demoPreds) = .ok
      { total_students := 3
        attentive_students := 2
        distracted_students := 1
        engagement_rate := 200/3
        activity_breakdown := [("reading", 2), ("sleeping", 1)] } :=
  C2_image_summary demoPreds (by decide)

/-- C2 counterexample: on the scenario input the stored engagement rate is
exactly `200/3`, which is not `66.7 = 667/10`; the claim's literal value
`66.7` is only the one-decimal rendering. -/
theorem C2_engagement_not_667 :
    (generate_image_summary (some demoPreds)).map (·.engagement_rate) =
      .ok (200/3 : ℚ) ∧ (200/3 : ℚ) ≠ 667/10 := by
  constructor
  · rw [image_summary_demo]
    rfl
  · norm_num

/-- C8 (amended): `reset_analysis` restores `student_tracks`,
`frame_count`, `detection_results` and `student_summaries` to their
fresh-constructor values but leaves `fps` untouched, so the reset state
equals a freshly constructed analyzer exactly when `fps` is still the
default 30. -/
theorem C8_reset_behavior (s : AnalyzerState) :
    reset_analysis s = { initState with fps := s.fps } ∧
    (reset_analysis s = initState ↔ s.fps = 30) := by
  refine ⟨rfl, ?_, ?_⟩
  · intro h
    have := congrArg AnalyzerState.fps h
    simpa [reset_analysis, initState] using this
  · intro h
    have h1 : reset_analysis s = { initState with fps := s.fps } := rfl
    rw [h1, h]
    rfl

/-- C4: for stride `k > 0` the video loop invokes detection on exactly
`⌈N/k⌉` sampled frames (the `processed_frames` counter, the second fold
component, counts the sampled frames), whose indices are exactly the
multiples of `k` below `N`, visited in strictly increasing order. -/
theorem C4_frame_sampling (k : ℕ) (hk : 0 < k) (s : AnalyzerState) (c : ℕ)
    (frames : List (List Detection)) (m : ℕ) :
    (frames.enum.foldl (videoStep k) (s, c)).2 =
      c + (sampledIndices frames.length k).length ∧
    (sampledIndices frames.length k).length = (frames.length + k - 1) / k ∧
    (m ∈ sampledIndices frames.length k ↔ m < frames.length ∧ m % k = 0) ∧
    (sampledIndices frames.length k).Pairwise (· < ·) := by
  refine ⟨?_, length_sampledIndices k hk frames.length,
    mem_sampledIndices _ _ _, pairwise_sampledIndices _ _⟩
  rw [videoLoop_processed, countP_enum_sampled]

/-- C4 witness: a 7-frame source with stride 3 samples the 3 indices
0, 3, 6. -/
theorem C4_frame_sampling_witness :
    ((List.replicate 7 ([] : List Detection)).enum.foldl (videoStep 3) (initState, 0)).2 =
      0 + (sampledIndices (List.replicate 7 ([] : List Detection)).length 3).length ∧
    (sampledIndices (List.replicate 7 ([] : List Detection)).length 3).length =
      ((List.replicate 7 ([] : List Detection)).length + 3 - 1) / 3 ∧
    (6 ∈ sampledIndices (List.replicate 7 ([] : List Detection)).length 3 ↔
      6 < (List.replicate 7 ([] : List Detection)).length ∧ 6 % 3 = 0) ∧
    (sampledIndices (List.replicate 7 ([] : List Detection)).length 3).Pairwise (· < ·) :=
  C4_frame_sampling 3 (by decide) initState 0 (List.replicate 7 []) 6

/-- C5 (amended): detections parsed from the backend satisfy the full
center/corner consistency exactly; every synthetic (mock) detection
arises from a drawn parameter set, satisfies the center equations
exactly, and has corner deltas exactly `2 * (dim // 2)` — equal to the
stored `width`/`height` when the drawn dimension is even and one pixel
less when it is odd. -/
theorem C5_box_consistency (names : List (ℕ × String))
    (boxes : Option (List RawBox)) (params : List MockParams)
    (imageLoaded : Bool) (d₁ : Detection)
    (hd₁ : d₁ ∈ parse_yolov8_results names boxes) (d₂ : Detection)
    (hd₂ : d₂ ∈ mock_detection imageLoaded params) :
    (d₁.x = (d₁.x1 + d₁.x2) / 2 ∧ d₁.y = (d₁.y1 + d₁.y2) / 2 ∧
     d₁.width = d₁.x2 - d₁.x1 ∧ d₁.height = d₁.y2 - d₁.y1) ∧
    (d₂.x = (d₂.x1 + d₂.x2) / 2 ∧ d₂.y = (d₂.y1 + d₂.y2) / 2) ∧
    (∃ p ∈ params, d₂ = mkMockDetection p ∧
      d₂.width = (p.w : ℚ) ∧ d₂.height = (p.h : ℚ) ∧
      d₂.x2 - d₂.x1 = ((2 * (p.w / 2) : ℕ) : ℚ) ∧
      d₂.y2 - d₂.y1 = ((2 * (p.h / 2) : ℕ) : ℚ) ∧
      (p.w % 2 = 0 → d₂.x2 - d₂.x1 = d₂.width) ∧
      (p.w % 2 = 1 → d₂.x2 - d₂.x1 = d₂.width - 1) ∧
      (p.h % 2 = 0 → d₂.y2 - d₂.y1 = d₂.height) ∧
      (p.h % 2 = 1 → d₂.y2 - d₂.y1 = d₂.height - 1)) := by
  have hmock : imageLoaded = true ∧ d₂ ∈ params.map mkMockDetection := by
    cases imageLoaded with
    | false => exact absurd hd₂ (by simp [mock_detection])
    | true => exact ⟨rfl, by simpa [mock_detection] using hd₂⟩
  refine ⟨?_, ?_, ?_⟩
  · cases boxes with
    | none => exact absurd hd₁ (by simp [parse_yolov8_results])
    | some bs =>
      obtain ⟨b, -, rfl⟩ := List.mem_map.mp hd₁
      refine ⟨rfl, rfl, ?_, ?_⟩
      · show b.x2 - b.x1 = b.x2 - b.x1
        rfl
      · rfl
  · obtain ⟨p, -, rfl⟩ := List.mem_map.mp hmock.2
    constructor
    · show (p.x_center : ℚ) =
        (((p.x_center : ℚ) - (p.w / 2 : ℕ)) + ((p.x_center : ℚ) + (p.w / 2 : ℕ))) / 2
      ring
    · show (p.y_center : ℚ) =
        (((p.y_center : ℚ) - (p.h / 2 : ℕ)) + ((p.y_center : ℚ) + (p.h / 2 : ℕ))) / 2
      ring
  · obtain ⟨p, hp, rfl⟩ := List.mem_map.mp hmock.2
    have hdx : ((p.x_center : ℚ) + (p.w / 2 : ℕ)) - ((p.x_center : ℚ) - (p.w / 2 : ℕ)) =
        2 * ((p.w / 2 : ℕ) : ℚ) := by ring
    have hdy : ((p.y_center : ℚ) + (p.h / 2 : ℕ)) - ((p.y_center : ℚ) - (p.h / 2 : ℕ)) =
        2 * ((p.h / 2 : ℕ) : ℚ) := by ring
    refine ⟨p, hp, rfl, rfl, rfl, ?_, ?_, ?_, ?_, ?_, ?_⟩
    · show ((p.x_center : ℚ) + (p.w / 2 : ℕ)) - ((p.x_center : ℚ) - (p.w / 2 : ℕ)) =
        ((2 * (p.w / 2) : ℕ) : ℚ)
      rw [hdx]
      push_cast
      ring
    · show ((p.y_center : ℚ) + (p.h / 2 : ℕ)) - ((p.y_center : ℚ) - (p.h / 2 : ℕ)) =
        ((2 * (p.h / 2) : ℕ) : ℚ)
      rw [hdy]
      push_cast
      ring
    · intro hw
      show ((p.x_center : ℚ) + (p.w / 2 : ℕ)) - ((p.x_center : ℚ) - (p.w / 2 : ℕ)) = (p.w : ℚ)
      rw [hdx]
      have hnat : 2 * (p.w / 2) = p.w := by omega
      exact_mod_cast hnat
    · intro hw
      show ((p.x_center : ℚ) + (p.w / 2 : ℕ)) - ((p.x_center : ℚ) - (p.w / 2 : ℕ)) =
        (p.w : ℚ) - 1
      rw [hdx]
      have hnat : p.w = 2 * (p.w / 2) + 1 := by omega
      have hq : (p.w : ℚ) = 2 * ((p.w / 2 : ℕ) : ℚ) + 1 := by exact_mod_cast hnat
      linarith
    · intro hh
      show ((p.y_center : ℚ) + (p.h / 2 : ℕ)) - ((p.y_center : ℚ) - (p.h / 2 : ℕ)) = (p.h : ℚ)
      rw [hdy]
      have hnat : 2 * (p.h / 2) = p.h := by omega
      exact_mod_cast hnat
    · intro hh
      show ((p.y_center : ℚ) + (p.h / 2 : ℕ)) - ((p.y_center : ℚ) - (p.h / 2 : ℕ)) =
        (p.h : ℚ) - 1
      rw [hdy]
      have hnat : p.h = 2 * (p.h / 2) + 1 := by omega
      have hq : (p.h : ℚ) = 2 * ((p.h / 2 : ℕ) : ℚ) + 1 := by exact_mod_cast hnat
      linarith

/-- C5 witness: a concrete parsed box and a concrete mock draw with even
dimensions satisfy the exact consistency characterization. -/
theorem C5_box_consistency_witness :
    ((parseBox demoNames demoBox).x =
        ((parseBox demoNames demoBox).x1 + (parseBox demoNames demoBox).x2) / 2 ∧
     (parseBox demoNames demoBox).y =
        ((parseBox demoNames demoBox).y1 + (parseBox demoNames demoBox).y2) / 2 ∧
     (parseBox demoNames demoBox).width =
        (parseBox demoNames demoBox).x2 - (parseBox demoNames demoBox).x1 ∧
     (parseBox demoNames demoBox).height =
        (parseBox demoNames demoBox).y2 - (parseBox demoNames demoBox).y1) ∧
    ((mkMockDetection evenMockParams).x =
        ((mkMockDetection evenMockParams).x1 + (mkMockDetection evenMockParams).x2) / 2 ∧
     (mkMockDetection evenMockParams).y =
        ((mkMockDetection evenMockParams).y1 + (mkMockDetection evenMockParams).y2) / 2) ∧
    (∃ p ∈ [evenMockParams], mkMockDetection evenMockParams = mkMockDetection p ∧
      (mkMockDetection evenMockParams).width = (p.w : ℚ) ∧
      (mkMockDetection evenMockParams).height = (p.h : ℚ) ∧
      (mkMockDetection evenMockParams).x2 - (mkMockDetection evenMockParams).x1 =
        ((2 * (p.w / 2) : ℕ) : ℚ) ∧
      (mkMockDetection evenMockParams).y2 - (mkMockDetection evenMockParams).y1 =
        ((2 * (p.h / 2) : ℕ) : ℚ) ∧
      (p.w % 2 = 0 →
        (mkMockDetection evenMockParams).x2 - (mkMockDetection evenMockParams).x1 =
          (mkMockDetection evenMockParams).width) ∧
      (p.w % 2 = 1 →
        (mkMockDetection evenMockParams).x2 - (mkMockDetection evenMockParams).x1 =
          (mkMockDetection evenMockParams).width - 1) ∧
      (p.h % 2 = 0 →
        (mkMockDetection evenMockParams).y2 - (mkMockDetection evenMockParams).y1 =
          (mkMockDetection evenMockParams).height) ∧
      (p.h % 2 = 1 →
        (mkMockDetection evenMockParams).y2 - (mkMockDetection evenMockParams).y1 =
          (mkMockDetection evenMockParams).height - 1)) :=
  C5_box_consistency demoNames (some [demoBox]) [evenMockParams] true
    (parseBox demoNames demoBox) (by simp [parse_yolov8_results])
    (mkMockDetection evenMockParams) (by simp [mock_detection])

/-- C5 counterexample: a mock draw with the odd width 81 (inside the
sampled range [80, 150]) produces a detection whose corner delta
`x2 - x1 = 80` differs from its stored `width = 81` — an exact off-by-one,
not a floating-point rounding artifact. -/
theorem C5_mock_width_mismatch :
    mkMockDetection oddMockParams ∈ mock_detection true [oddMockParams] ∧
    (mkMockDetection oddMockParams).width = 81 ∧
    (mkMockDetection oddMockParams).x2 - (mkMockDetection oddMockParams).x1 = 80 ∧
    (mkMockDetection oddMockParams).width ≠
      (mkMockDetection oddMockParams).x2 - (mkMockDetection oddMockParams).x1 := by
  refine ⟨by simp [mock_detection], ?_, ?_, ?_⟩
  · norm_num [mkMockDetection, oddMockParams]
  · norm_num [mkMockDetection, oddMockParams]
  · norm_num [mkMockDetection, oddMockParams]

/-- C6: an analyzed image with an empty (or missing) detection list makes
`process_single_image` return the explicit `(None, None, None)` sentinel
— no exception, no partial summary — while `generate_image_summary`
returns the flagged error dict for a missing list and a valid all-zero
summary for an empty one. -/
theorem C6_no_detections_soft (outputPath : Option String)
    (imageLoaded : Bool) (detection : Option (List Detection))
    (h : detection = none ∨ detection = some []) :
    process_single_image outputPath detection imageLoaded = (none, none, none) ∧
    generate_image_summary none = .error "No detections found" ∧
    generate_image_summary (some []) = .ok
      { total_students := 0
        attentive_students := 0
        distracted_students := 0
        engagement_rate := 0
        activity_breakdown := [] } := by
  refine ⟨?_, rfl, rfl⟩
  rcases h with h | h
  · subst h
    rfl
  · subst h
    rfl

/-- C6 witness: the empty detection list triggers the sentinel. -/
theorem C6_no_detections_soft_witness :
    process_single_image none (some []) true = (none, none, none) ∧
    generate_image_summary none = .error "No detections found" ∧
    generate_image_summary (some []) = .ok
      { total_students := 0
        attentive_students := 0
        distracted_students := 0
        engagement_rate := 0
        activity_breakdown := [] } :=
  C6_no_detections_soft none true (some []) (Or.inr rfl)

/-- C7: when the backend is unavailable or raises, `detect_objects`
returns the synthetic (mock) result instead of propagating, and the video
loop processes the same number of sampled frames regardless of the
per-frame detection outcomes — a fallback frame never aborts the run. -/
theorem C7_backend_fallback (backend : Option (Except String (List Detection)))
    (mock : List Detection) (k : ℕ) (s₁ s₂ : AnalyzerState) (c : ℕ)
    (fr₁ fr₂ : List (List Detection))
    (h : backend = none ∨ ∃ e, backend = some (.error e))
    (hlen : fr₁.length = fr₂.length) :
    detect_objects backend mock = mock ∧
    (fr₁.enum.foldl (videoStep k) (s₁, c)).2 =
      (fr₂.enum.foldl (videoStep k) (s₂, c)).2 := by
  constructor
  · rcases h with h | ⟨e, h⟩
    · subst h
      rfl
    · subst h
      rfl
  · rw [videoLoop_processed, videoLoop_processed, countP_enum_sampled,
      countP_enum_sampled, hlen]

/-- C7 witness: a raised backend exception on a concrete frame falls back
to the mock result, and two equal-length runs process equally many
frames. -/
theorem C7_backend_fallback_witness :
    detect_objects (some (.error "backend down")) demoPreds = demoPreds ∧
    (([[], [demoDet "reading"]] : List (List Detection)).enum.foldl
        (videoStep 5) (initState, 0)).2 =
      (([[demoDet "sleeping"], []] : List (List Detection)).enum.foldl
        (videoStep 5) (demoState, 0)).2 :=
  C7_backend_fallback (some (.error "backend down")) demoPreds 5 initState
    demoState 0 [[], [demoDet "reading"]] [[demoDet "sleeping"], []]
    (Or.inr ⟨"backend down", rfl⟩) rfl

/-- C8 counterexample: after processing a video with frame rate 25, reset
leaves `fps = 25`, so the reset state differs from a fresh analyzer
(whose `fps` is 30). -/
theorem C8_reset_keeps_fps :
    (reset_analysis (process_video initState true 25 [[demoDet "reading"]] 5).1).fps = 25 ∧
    initState.fps = 30 ∧
    reset_analysis (process_video initState true 25 [[demoDet "reading"]] 5).1 ≠ initState := by
  refine ⟨by decide, by decide, by decide⟩

/-- C3 (amended): a completed video run reports `students_tracked` =
number of non-empty track slots, `total_frames_analyzed` = number of
sampled frames that produced at least one detection (frames whose
detection list was empty are skipped, line 325), and `video_duration` =
`total_frames_analyzed / fps`. -/
theorem C3_video_totals (videoFps : ℚ) (frames : List (List Detection))
    (k : ℕ) (hfps : 0 < videoFps)
    (h : 0 < frames.enum.countP (fun p => decide (p.1 % k = 0) && !p.2.isEmpty)) :
    (process_video initState true videoFps frames k).2 =
      .ok (videoSummaryOf (process_video initState true videoFps frames k).1) ∧
    (videoSummaryOf (process_video initState true videoFps frames k).1).students_tracked =
      nonEmptySlotCount (process_video initState true videoFps frames k).1.student_tracks ∧
    (videoSummaryOf (process_video initState true videoFps frames k).1).total_frames_analyzed =
      frames.enum.countP (fun p => decide (p.1 % k = 0) && !p.2.isEmpty) ∧
    (videoSummaryOf (process_video initState true videoFps frames k).1).video_duration =
      ((videoSummaryOf
          (process_video initState true videoFps frames k).1).total_frames_analyzed : ℚ) /
        videoFps := by
  have hlen : ((frames.enum.foldl (videoStep k)
      ({ initState with fps := videoFps }, 0)).1).detection_results.length =
      frames.enum.countP (fun p => decide (p.1 % k = 0) && !p.2.isEmpty) := by
    have := videoLoop_results_length k frames.enum { initState with fps := videoFps } 0
    simpa [initState] using this
  have hres : ((frames.enum.foldl (videoStep k)
      ({ initState with fps := videoFps }, 0)).1).detection_results ≠ [] := by
    apply List.length_pos.mp
    rw [hlen]
    exact h
  have hfpseq : ((frames.enum.foldl (videoStep k)
      ({ initState with fps := videoFps }, 0)).1).fps = videoFps := by
    have := videoLoop_fps k frames.enum { initState with fps := videoFps } 0
    simpa using this
  refine ⟨?_, ?_, ?_, ?_⟩
  · show generate_video_summary _ = .ok (videoSummaryOf _)
    exact generate_video_summary_ok _ hres
  · exact length_studentAnalysisList _
  · exact hlen
  · show (if 0 < ((frames.enum.foldl (videoStep k)
        ({ initState with fps := videoFps }, 0)).1).fps then
        (((frames.enum.foldl (videoStep k)
          ({ initState with fps := videoFps }, 0)).1).detection_results.length : ℚ) /
          ((frames.enum.foldl (videoStep k)
            ({ initState with fps := videoFps }, 0)).1).fps
      else 0) = _
    rw [hfpseq, if_pos hfps]
    rfl

/-- C3 witness: a single-frame run with one detection at stride 5 and
frame rate 30. -/
theorem C3_video_totals_witness :
    (process_video initState true 30 [[demoDet "reading"]] 5).2 =
      .ok (videoSummaryOf (process_video initState true 30 [[demoDet "reading"]] 5).1) ∧
    (videoSummaryOf
        (process_video initState true 30 [[demoDet "reading"]] 5).1).students_tracked =
      nonEmptySlotCount
        (process_video initState true 30 [[demoDet "reading"]] 5).1.student_tracks ∧
    (videoSummaryOf
        (process_video initState true 30 [[demoDet "reading"]] 5).1).total_frames_analyzed =
      ([[demoDet "reading"]] : List (List Detection)).enum.countP
        (fun p => decide (p.1 % 5 = 0) && !p.2.isEmpty) ∧
    (videoSummaryOf
        (process_video initState true 30 [[demoDet "reading"]] 5).1).video_duration =
      ((videoSummaryOf
          (process_video initState true 30 [[demoDet "reading"]] 5).1).total_frames_analyzed : ℚ) /
        30 :=
  C3_video_totals 30 [[demoDet "reading"]] 5 (by norm_num) (by decide)

/-- C3 counterexample: with stride 1 a two-frame run whose second sampled
frame has no detections reports `total_frames_analyzed = 1`, although 2
frames were sampled — the claim's "number of sampled frames" is wrong for
frames with empty detection lists. -/
theorem C3_skips_empty_frames :
    ((process_video initState true 30 [[demoDet "reading"], []] 1).2.map
        (·.total_frames_analyzed)) = .ok 1 ∧
    (sampledIndices ([[demoDet "reading"], []] : List (List Detection)).length 1).length = 2 := by
  constructor
  · rfl
  · decide

/-- C9: the tracking update appends, for each position `i` of the frame's
detection list, the entry built from detection `i` to the slot with index
`i`; no slot's timeline ever shrinks, neither in one update nor across
any sequence of processed frames. -/
theorem C9_positional_tracking (fps : ℚ) (n : ℕ) (preds : List Detection)
    (tracks : List (List TrackEntry)) (i : ℕ) (p : Detection)
    (hp : preds.get? i = some p) (fs : List (ℕ × List Detection)) (j : ℕ) :
    slotAt (update_tracking fps n preds tracks) i =
      slotAt tracks i ++ [mkTrackEntry fps n p] ∧
    (slotAt tracks j).length ≤
      (slotAt (update_tracking fps n preds tracks) j).length ∧
    (slotAt tracks j).length ≤ (slotAt (applyFrames fps fs tracks) j).length := by
  refine ⟨?_, ?_, ?_⟩
  · rw [slotAt_update_tracking, hp]
  · rw [length_slotAt_update_tracking]
    exact Nat.le_add_right _ _
  · rw [length_slotAt_applyFrames]
    exact Nat.le_add_right _ _

/-- C9 witness: detection 1 of the scenario list is appended to slot 1 by
a concrete update. -/
theorem C9_positional_tracking_witness :
    slotAt (update_tracking 30 0 demoPreds []) 1 =
      slotAt [] 1 ++ [mkTrackEntry 30 0 (demoDet "reading")] ∧
    (slotAt [] 0).length ≤ (slotAt (update_tracking 30 0 demoPreds []) 0).length ∧
    (slotAt [] 0).length ≤ (slotAt (applyFrames 30 [(0, demoPreds)] []) 0).length :=
  C9_positional_tracking 30 0 demoPreds [] 1 (demoDet "reading") rfl
    [(0, demoPreds)] 0

/-- C10: after any sequence of tracking updates from the fresh (empty)
state, slot timeline lengths are non-increasing in the slot index; slot
`i` is non-empty exactly when some processed frame had more than `i`
detections; and the number of non-empty slots equals the maximum
detection count observed in any single processed frame. -/
theorem C10_slot_shape (fps : ℚ) (fs : List (ℕ × List Detection)) (i : ℕ) :
    (slotAt (applyFrames fps fs []) (i + 1)).length ≤
      (slotAt (applyFrames fps fs []) i).length ∧
    (slotAt (applyFrames fps fs []) i ≠ [] ↔ ∃ p ∈ fs, i < p.2.length) ∧
    nonEmptySlotCount (applyFrames fps fs []) = maxDetections fs := by
  have hlen : ∀ j, (slotAt (applyFrames fps fs []) j).length =
      fs.countP (fun p => decide (j < p.2.length)) := by
    intro j
    rw [length_slotAt_applyFrames]
    simp [slotAt]
  have hne_iff : ∀ j, slotAt (applyFrames fps fs []) j ≠ [] ↔
      ∃ p ∈ fs, j < p.2.length := by
    intro j
    rw [show (slotAt (applyFrames fps fs []) j ≠ []) ↔
        0 < (slotAt (applyFrames fps fs []) j).length from List.length_pos.symm,
      hlen j, List.countP_pos_iff]
    simp
  refine ⟨?_, hne_iff i, ?_⟩
  · rw [hlen, hlen]
    refine List.countP_mono_left ?_
    intro x _ hx
    simp only [decide_eq_true_eq] at hx ⊢
    omega
  · have hM : (applyFrames fps fs []).length = maxDetections fs := by
      rw [length_applyFrames]
      simp
    rw [nonEmptySlotCount]
    have hkeep : (applyFrames fps fs []).filter (fun t => !t.isEmpty) =
        applyFrames fps fs [] := by
      apply List.filter_eq_self.mpr
      intro t ht
      obtain ⟨idx, hidx⟩ := List.mem_iff_get.mp ht
      have hslot : slotAt (applyFrames fps fs []) idx.1 = t := by
        rw [slotAt, List.getD_eq_getElem _ _ idx.2]
        simpa using hidx
      have hi2 : (idx.1 : ℕ) < maxDetections fs := by
        rw [← hM]
        exact idx.2
      have hne : slotAt (applyFrames fps fs []) idx.1 ≠ [] :=
        (hne_iff idx.1).mpr ((lt_maxDetections_iff fs idx.1).mp hi2)
      rw [hslot] at hne
      simp [hne]
    rw [hkeep, hM]

end MindWatch
